import Mathlib

/-!
Verification of the walking-with-claude daemon's heartbeat-driven lifecycle
controller (src/walking_with_claude/daemon.py) against its natural-language
specification.

The controller is embedded shallowly:

  * speeds and wall-clock timestamps are rationals (the Python code uses
    floats only for comparisons and the clamp, which agree with exact
    arithmetic on the values involved);
  * JSON-decoded field values are `JVal`; a request body is either
    unparsable (the `except` branch leaves `body = {}`) or an object with
    optional `session` and `speed` fields;
  * the shared module-level state (`pad`, `last_heartbeat`, `target_speed`,
    `sessions`) is the structure `DState`; the watchdog-local `slowed` flag
    is threaded explicitly through `watchdogTick` / `watchdogRun`;
  * each device-gateway call (`connect`, `start`, `stop`, `set_speed`) made
    during one handler invocation or one watchdog tick either succeeds or
    raises, as dictated by a `GwOutcome` oracle; the commands attempted are
    recorded in order in a trace of `Cmd`s;
  * a Python exception escaping a handler is `HOut.raised`; the 503 JSON
    error response produced on a connect failure is `HOut.err503`; a normal
    200 response is `HOut.ok`.  Mutations performed before a raise persist,
    exactly as Python leaves module-level globals mutated when an exception
    propagates.
-/

namespace WWC

/-- A JSON-decoded value as a Python object: number, string, null (None),
or boolean.  These are the shapes a request-body field can take. -/
inductive JVal where
  | num (q : ℚ)
  | str (s : String)
  | jnull
  | jbool (b : Bool)
  deriving DecidableEq

/-- Python truthiness of a JSON-decoded value (used by
`if session_id and session_id in sessions` in handle_stop). -/
def truthy : JVal → Bool
  | .num q => q != 0
  | .str s => !s.isEmpty
  | .jbool b => b
  | .jnull => false

/-- The result of a successful Python `float()`: a finite value (kept as an
exact rational) or one of the non-finite floats.  The controller feeds
every such value straight into the `max(0.5, min(6.0, _))` clamp, whose
behavior on non-finite inputs is modeled in `clampPy`. -/
inductive PyVal where
  | fin (q : ℚ)
  | pinf
  | ninf
  | nan
  deriving DecidableEq

/-- The ASCII whitespace characters Python `float()` strips from both ends
of its string argument. -/
def isPySpace (c : Char) : Bool :=
  c = ' ' || c = '\t' || c = '\n' || c = '\r' || c.toNat = 11 || c.toNat = 12

/-- Strips `isPySpace` characters from both ends. -/
def stripEnds (cs : List Char) : List Char :=
  ((cs.dropWhile isPySpace).reverse.dropWhile isPySpace).reverse

/-- Reads a run of decimal digits with PEP-515 underscore separators
(single underscores, strictly between digits), returning the value and the
number of digits read; `none` on an empty run, a stray character, or a
misplaced underscore. -/
def readUIntAux (acc : ℕ) (cnt : ℕ) : List Char → Option (ℕ × ℕ)
  | [] => some (acc, cnt)
  | c :: cs =>
    if c.isDigit then readUIntAux (10 * acc + (c.toNat - 48)) (cnt + 1) cs
    else
      if c = '_' then
        match cs with
        | c2 :: cs2 =>
          if c2.isDigit then readUIntAux (10 * acc + (c2.toNat - 48)) (cnt + 1) cs2
          else none
        | [] => none
      else none

/-- A digit run must begin with a digit (so `"_1"` is rejected). -/
def readUInt (cs : List Char) : Option (ℕ × ℕ) :=
  match cs with
  | [] => none
  | c :: _ => if c.isDigit then readUIntAux 0 0 cs else none

/-- Splits a character list at the first decimal point, if any. -/
def splitDot : List Char → List Char × Option (List Char)
  | [] => ([], none)
  | c :: cs =>
    if c = '.' then ([], some cs)
    else
      let r := splitDot cs
      (c :: r.1, r.2)

/-- Splits a character list at the first exponent marker `e`/`E`, if
any. -/
def splitExp : List Char → List Char × Option (List Char)
  | [] => ([], none)
  | c :: cs =>
    if c = 'e' ∨ c = 'E' then ([], some cs)
    else
      let r := splitExp cs
      (c :: r.1, r.2)

/-- Value of an unsigned mantissa: `digits`, `digits.`, `.digits` or
`digits.digits`, with underscore separators inside each digit run; `none`
when both sides of the point are empty or a run is malformed. -/
def mantissaVal (cs : List Char) : Option ℚ :=
  match splitDot cs with
  | (intPart, none) =>
    if intPart = [] then none
    else (readUInt intPart).map fun p => (p.1 : ℚ)
  | (intPart, some fracPart) =>
    if intPart = [] ∧ fracPart = [] then none
    else
      let i? := if intPart = [] then some ((0 : ℕ), (0 : ℕ)) else readUInt intPart
      let f? := if fracPart = [] then some ((0 : ℕ), (0 : ℕ)) else readUInt fracPart
      match i?, f? with
      | some i, some f => some ((i.1 : ℚ) + (f.1 : ℚ) / (10 : ℚ) ^ f.2)
      | _, _ => none

/-- Value of an exponent part (after the `e`/`E`): optional sign, then a
digit run. -/
def expVal : List Char → Option ℤ
  | [] => none
  | c :: cs =>
    if c = '-' then (readUInt cs).map fun p => -(p.1 : ℤ)
    else if c = '+' then (readUInt cs).map fun p => (p.1 : ℤ)
    else (readUInt (c :: cs)).map fun p => (p.1 : ℤ)

/-- Models Python `float()` applied to an ASCII string: surrounding
whitespace stripped, optional sign, then case-insensitively `inf` /
`infinity` / `nan`, or a decimal literal with optional fraction, optional
`e`/`E` exponent and PEP-515 underscore separators.  `none` means Python
raises ValueError.  Finite values are kept as exact rationals: magnitudes
beyond double range and rounding to nearest double are not modeled, a
difference invisible through the speed clamp, the only consumer. -/
def strToFloat? (s : String) : Option PyVal :=
  match stripEnds s.data with
  | [] => none
  | c :: cs =>
    let (neg, rest) :=
      if c = '-' then (true, cs)
      else if c = '+' then (false, cs)
      else (false, c :: cs)
    let low := rest.map Char.toLower
    if low = ['i', 'n', 'f'] ∨ low = ['i', 'n', 'f', 'i', 'n', 'i', 't', 'y'] then
      some (if neg then PyVal.ninf else PyVal.pinf)
    else if low = ['n', 'a', 'n'] then some PyVal.nan
    else
      match splitExp rest with
      | (mant, expPart) =>
        match mantissaVal mant, expPart with
        | none, _ => none
        | some m, none => some (.fin (if neg then -m else m))
        | some m, some ecs =>
          match expVal ecs with
          | none => none
          | some e => some (.fin ((if neg then -m else m) * (10 : ℚ) ^ e))

/-- Python `float(x)` on a JSON-decoded value: numbers pass through,
strings go through the `float()` string grammar, booleans coerce to 0/1,
and null (None) raises (`none`, a TypeError). -/
def pyFloat : JVal → Option PyVal
  | .num q => some (.fin q)
  | .str s => strToFloat? s
  | .jbool b => some (.fin (if b then 1 else 0))
  | .jnull => none

/-- A request body as a handler sees it after the `request.json()` /
`except` block: unparsable (body stays `{}`) or a JSON object with its
optional `session` and `speed` fields. -/
inductive Body where
  | unparsable
  | obj (session : Option JVal) (speed : Option JVal)
  deriving DecidableEq

/-- The body's `session` field, when present. -/
def Body.sessionField : Body → Option JVal
  | .unparsable => none
  | .obj s _ => s

/-- The body's `speed` field, when present. -/
def Body.speedField : Body → Option JVal
  | .unparsable => none
  | .obj _ sp => sp

/-- The device snapshot observed through the gateway: `pad.connected`,
`pad.running`, `pad.speed` in daemon.py. -/
structure Pad where
  connected : Bool
  running : Bool
  speed : ℚ
  deriving DecidableEq

/-- The shared controller state of daemon.py: the module-level globals
`last_heartbeat` (0 is the "unset" sentinel), `target_speed`, `sessions`,
together with the device snapshot. -/
structure DState where
  pad : Pad
  last_heartbeat : ℚ
  target_speed : ℚ
  sessions : Finset JVal
  deriving DecidableEq

/-- `SLOW_AFTER = 30.0` in daemon.py. -/
def SLOW_AFTER : ℚ := 30

/-- `STOP_AFTER = 60.0` in daemon.py. -/
def STOP_AFTER : ℚ := 60

/-- `MIN_SPEED = 1.0` in daemon.py. -/
def MIN_SPEED : ℚ := 1

/-- `DEFAULT_SPEED = 2.0` in daemon.py. -/
def DEFAULT_SPEED : ℚ := 2

/-- The speed clamp used verbatim in handle_heartbeat, handle_start and
handle_speed: `max(0.5, min(6.0, x))`. -/
def clamp (q : ℚ) : ℚ := max (1 / 2) (min 6 q)

/-- The same clamp applied to a Python float value, with Python's
comparison semantics on non-finite inputs: `min(6.0, x)` is `x` when
`x < 6.0` and otherwise `6.0` (every comparison with nan is false, so nan
and +inf give 6.0, -inf passes through), then `max(0.5, m)` is `m` when
`m > 0.5` and otherwise `0.5` (so -inf gives 0.5). -/
def clampPy : PyVal → ℚ
  | .fin q => clamp q
  | .pinf => 6
  | .nan => 6
  | .ninf => 1 / 2

/-- The controller state at process start: fresh `SperaxPad()` (neither
connected nor running), `last_heartbeat = 0.0`, `target_speed =
DEFAULT_SPEED`, empty session set. -/
def initState : DState :=
  { pad := { connected := false, running := false, speed := 0 }
    last_heartbeat := 0
    target_speed := DEFAULT_SPEED
    sessions := ∅ }

/-- Outcome oracle for the device-gateway calls made during one handler
invocation or one watchdog tick: whether each kind of call, if attempted,
succeeds or raises. -/
structure GwOutcome where
  connectOk : Bool
  startOk : Bool
  stopOk : Bool
  setSpeedOk : Bool
  deriving DecidableEq

/-- All gateway calls succeed. -/
def gwOk : GwOutcome := ⟨true, true, true, true⟩

/-- A device-gateway command attempted by the controller, recorded in
order. -/
inductive Cmd where
  | connect
  | start (speed : ℚ)
  | stop
  | setSpeed (speed : ℚ)
  deriving DecidableEq

/-- How a handler invocation ends: a 200 JSON response, the 503
gateway-unavailable JSON response (connect failure caught in the handler),
or a Python exception escaping the handler uncaught. -/
inductive HOut where
  | ok
  | err503
  | raised
  deriving DecidableEq

/-- Result of one handler invocation: outcome, resulting shared state
(reflecting all mutations performed before any raise), and the gateway
commands attempted. -/
structure HRes where
  out : HOut
  st : DState
  cmds : List Cmd
  deriving DecidableEq

/-- The argument `body.get("session", None)` of handle_stop: a JSON null
decodes to Python None, indistinguishable from an absent field. -/
def stopSessionArg (b : Body) : Option JVal :=
  match b.sessionField with
  | some .jnull => none
  | x => x

/-- The value `body.get("speed", None)` in handle_heartbeat: a JSON null
decodes to Python None, indistinguishable from an absent field. -/
def hbSpeedArg (b : Body) : Option JVal :=
  match b.speedField with
  | some .jnull => none
  | x => x

/-- The `if not pad.connected: try: await pad.connect() ...` block shared
by handle_heartbeat and handle_start: `none` when the connect attempt
raised (the handler returns the 503 response), otherwise the state with the
device connected and the trace of the attempt. -/
def connectIfNeeded (gw : GwOutcome) (st : DState) : Option (DState × List Cmd) :=
  if st.pad.connected then some (st, [])
  else if gw.connectOk then
    some ({ st with pad := { st.pad with connected := true } }, [Cmd.connect])
  else none

/-- The device phase of handle_heartbeat (auto-connect, then `start` when
not running, else `set_speed` when a speed was supplied).  Touches only the
device snapshot; a raised `start`/`set_speed` escapes as `HOut.raised`. -/
def heartbeatDevice (speedGiven : Bool) (gw : GwOutcome) (st : DState) : HRes :=
  match connectIfNeeded gw st with
  | none => ⟨.err503, st, [Cmd.connect]⟩
  | some (st3, cs) =>
    if st3.pad.running = false then
      if gw.startOk then
        ⟨.ok, { st3 with pad := { st3.pad with running := true, speed := st3.target_speed } },
          cs ++ [Cmd.start st3.target_speed]⟩
      else ⟨.raised, st3, cs ++ [Cmd.start st3.target_speed]⟩
    else if speedGiven then
      if gw.setSpeedOk then
        ⟨.ok, { st3 with pad := { st3.pad with speed := st3.target_speed } },
          cs ++ [Cmd.setSpeed st3.target_speed]⟩
      else ⟨.raised, st3, cs ++ [Cmd.setSpeed st3.target_speed]⟩
    else ⟨.ok, st3, cs⟩

/-- Shallow embedding of daemon.handle_heartbeat.  `now` is `time.time()`.
Order matters: `last_heartbeat` and `sessions` are mutated before the
`float(speed)` call, which in turn precedes all device I/O, so those
mutations survive on every error path. -/
def handle_heartbeat (now : ℚ) (b : Body) (gw : GwOutcome) (st : DState) : HRes :=
  let session_id := b.sessionField.getD (JVal.str "default")
  let speed : Option JVal := hbSpeedArg b
  let st1 : DState :=
    { st with last_heartbeat := now, sessions := insert session_id st.sessions }
  let step2 : Option DState :=
    match speed with
    | none => some st1
    | some v =>
      match pyFloat v with
      | none => none
      | some pv => some { st1 with target_speed := clampPy pv }
  match step2 with
  | none => ⟨.raised, st1, []⟩
  | some st2 => heartbeatDevice speed.isSome gw st2

/-- The device phase of handle_start: auto-connect, then an unconditional
`start` at the stored target speed. -/
def startDevice (gw : GwOutcome) (st : DState) : HRes :=
  match connectIfNeeded gw st with
  | none => ⟨.err503, st, [Cmd.connect]⟩
  | some (st2, cs) =>
    if gw.startOk then
      ⟨.ok, { st2 with pad := { st2.pad with running := true, speed := st2.target_speed } },
        cs ++ [Cmd.start st2.target_speed]⟩
    else ⟨.raised, st2, cs ++ [Cmd.start st2.target_speed]⟩

/-- Shallow embedding of daemon.handle_start.  The handler never reads the
body's `session` field; `float(speed)` (with default `DEFAULT_SPEED`) runs
before any state mutation, so a raise there leaves the state untouched. -/
def handle_start (now : ℚ) (b : Body) (gw : GwOutcome) (st : DState) : HRes :=
  let fq : Option PyVal :=
    match b.speedField with
    | none => some (.fin DEFAULT_SPEED)
    | some v => pyFloat v
  match fq with
  | none => ⟨.raised, st, []⟩
  | some pv =>
    startDevice gw { st with target_speed := clampPy pv, last_heartbeat := now }

/-- Shallow embedding of daemon.handle_stop.  A session token is discarded
only when truthy and present; the device is stopped (and the clock and
session set force-cleared) when no token was supplied or no session
remains.  A raise in `pad.stop()` happens before the clearing lines, which
then do not run. -/
def handle_stop (b : Body) (gw : GwOutcome) (st : DState) : HRes :=
  let session_id := stopSessionArg b
  let st1 : DState :=
    match session_id with
    | some v =>
      if truthy v ∧ v ∈ st.sessions then { st with sessions := st.sessions.erase v } else st
    | none => st
  if session_id = none ∨ st1.sessions = ∅ then
    if st1.pad.connected ∧ st1.pad.running then
      if gw.stopOk then
        ⟨.ok, { st1 with pad := { st1.pad with running := false, speed := 0 },
                         last_heartbeat := 0, sessions := ∅ }, [Cmd.stop]⟩
      else ⟨.raised, st1, [Cmd.stop]⟩
    else ⟨.ok, { st1 with last_heartbeat := 0, sessions := ∅ }, []⟩
  else ⟨.ok, st1, []⟩

/-- Shallow embedding of daemon.handle_speed.  Clamps and stores the speed
and refreshes the clock, then issues `set_speed` only when the device is
connected and running. -/
def handle_speed (now : ℚ) (b : Body) (gw : GwOutcome) (st : DState) : HRes :=
  let fq : Option PyVal :=
    match b.speedField with
    | none => some (.fin DEFAULT_SPEED)
    | some v => pyFloat v
  match fq with
  | none => ⟨.raised, st, []⟩
  | some pv =>
    let st1 : DState := { st with target_speed := clampPy pv, last_heartbeat := now }
    if st1.pad.connected ∧ st1.pad.running then
      if gw.setSpeedOk then
        ⟨.ok, { st1 with pad := { st1.pad with speed := st1.target_speed } },
          [Cmd.setSpeed st1.target_speed]⟩
      else ⟨.raised, st1, [Cmd.setSpeed st1.target_speed]⟩
    else ⟨.ok, st1, []⟩

/-- Shallow embedding of daemon.handle_session_end.  Discards the token
(default "default"), then stops the device only when the session set became
empty and the device is connected and running; never touches
`last_heartbeat`. -/
def handle_session_end (b : Body) (gw : GwOutcome) (st : DState) : HRes :=
  let session_id := b.sessionField.getD (JVal.str "default")
  let st1 : DState := { st with sessions := st.sessions.erase session_id }
  if st1.sessions = ∅ ∧ st1.pad.connected ∧ st1.pad.running then
    if gw.stopOk then
      ⟨.ok, { st1 with pad := { st1.pad with running := false, speed := 0 } }, [Cmd.stop]⟩
    else ⟨.raised, st1, [Cmd.stop]⟩
  else ⟨.ok, st1, []⟩

/-- Result of one iteration of the watchdog `while True` body (after the 5s
sleep): whether an exception escaped the iteration (terminating the loop —
the body has no try/except), the new value of the loop-local `slowed` flag,
the resulting shared state, and the gateway commands attempted. -/
structure TickRes where
  crashed : Bool
  slowed : Bool
  st : DState
  cmds : List Cmd
  deriving DecidableEq

/-- Shallow embedding of one iteration of daemon.watchdog, observed at
wall-clock time `now`. -/
def watchdogTick (now : ℚ) (gw : GwOutcome) (slowed : Bool) (st : DState) : TickRes :=
  if st.last_heartbeat = 0 ∨ st.pad.running = false then
    ⟨false, false, st, []⟩
  else
    let elapsed := now - st.last_heartbeat
    if elapsed > STOP_AFTER then
      if st.pad.connected ∧ st.pad.running then
        if gw.stopOk then
          ⟨false, false, { st with pad := { st.pad with running := false, speed := 0 },
                                   sessions := ∅ }, [Cmd.stop]⟩
        else ⟨true, slowed, st, [Cmd.stop]⟩
      else ⟨false, false, st, []⟩
    else if elapsed > SLOW_AFTER ∧ slowed = false then
      if st.pad.connected ∧ st.pad.running then
        if gw.setSpeedOk then
          ⟨false, true, { st with pad := { st.pad with speed := MIN_SPEED } },
            [Cmd.setSpeed MIN_SPEED]⟩
        else ⟨true, slowed, st, [Cmd.setSpeed MIN_SPEED]⟩
      else ⟨false, true, st, []⟩
    else ⟨false, slowed, st, []⟩

/-- The watchdog loop over a finite schedule of wake-ups, each given by its
wall-clock time and the gateway behavior during that tick.  The first
component is `none` when some tick raised and the loop terminated (the
remaining wake-ups never run); otherwise it carries the final `slowed` flag
and state.  The second component lists every gateway command attempted
before termination. -/
def watchdogRun (slowed : Bool) (st : DState) :
    List (ℚ × GwOutcome) → Option (Bool × DState) × List Cmd
  | [] => (some (slowed, st), [])
  | (now, gw) :: rest =>
    let r := watchdogTick now gw slowed st
    if r.crashed then (none, r.cmds)
    else
      let rr := watchdogRun r.slowed r.st rest
      (rr.1, r.cmds ++ rr.2)

/-- Reachability of controller states: the initial state, closed under the
five mutating handlers, watchdog ticks, and arbitrary external changes to
the device snapshot (the physical device may stop, disconnect or change
speed on its own). -/
inductive Reachable : DState → Prop where
  | init : Reachable initState
  | heartbeat (now b gw) {st} : Reachable st → Reachable (handle_heartbeat now b gw st).st
  | start (now b gw) {st} : Reachable st → Reachable (handle_start now b gw st).st
  | stop (b gw) {st} : Reachable st → Reachable (handle_stop b gw st).st
  | speed (now b gw) {st} : Reachable st → Reachable (handle_speed now b gw st).st
  | sessionEnd (b gw) {st} : Reachable st → Reachable (handle_session_end b gw st).st
  | tick (now gw sl) {st} : Reachable st → Reachable (watchdogTick now gw sl st).st
  | device (p) {st} : Reachable st → Reachable { st with pad := p }

/-- A connected, running device snapshot (belt at 2 km/h), for concrete
scenarios. -/
def padRun : Pad := { connected := true, running := true, speed := 2 }

/-- Device connected and running, one active session "a", last heartbeat at
time 10, target 2 km/h. -/
def stRun : DState :=
  { pad := padRun, last_heartbeat := 10, target_speed := 2,
    sessions := {JVal.str "a"} }

/-- Device connected but not running, no sessions, last heartbeat at time
10. -/
def stConnNotRun : DState :=
  { pad := { connected := true, running := false, speed := 0 },
    last_heartbeat := 10, target_speed := 2, sessions := ∅ }

/-- Gateway behavior where only `start` raises. -/
def gwStartFail : GwOutcome := ⟨true, false, true, true⟩

/-- Gateway behavior where only `stop` raises. -/
def gwStopFail : GwOutcome := ⟨true, true, false, true⟩

/-- Gateway behavior where only `connect` raises. -/
def gwConnFail : GwOutcome := ⟨false, true, true, true⟩

/-- The state after the watchdog has slowed the belt: device running at
MIN_SPEED while the stored target speed is still 4. -/
def stSlowed : DState :=
  { pad := { connected := true, running := true, speed := 1 },
    last_heartbeat := 10, target_speed := 4, sessions := {JVal.str "a"} }

/-! ## Helper lemmas -/

/-- The clamp never goes below 0.5. -/
theorem half_le_clamp (q : ℚ) : 1 / 2 ≤ clamp q := le_max_left _ _

/-- The clamp never exceeds 6. -/
theorem clamp_le_six (q : ℚ) : clamp q ≤ 6 :=
  max_le (by norm_num) (min_le_left _ _)

/-- The clamp of a value is exactly `max (1/2) (min 6 q)` (definitional). -/
theorem clamp_eq (q : ℚ) : clamp q = max (1 / 2) (min 6 q) := rfl

/-- The Python-float clamp never goes below 0.5, whatever the float
value. -/
theorem half_le_clampPy (pv : PyVal) : 1 / 2 ≤ clampPy pv := by
  cases pv with
  | fin q => exact half_le_clamp q
  | pinf => norm_num [clampPy]
  | ninf => norm_num [clampPy]
  | nan => norm_num [clampPy]

/-- The Python-float clamp never exceeds 6, whatever the float value. -/
theorem clampPy_le_six (pv : PyVal) : clampPy pv ≤ 6 := by
  cases pv with
  | fin q => exact clamp_le_six q
  | pinf => norm_num [clampPy]
  | ninf => norm_num [clampPy]
  | nan => norm_num [clampPy]

/-- While the device is not running, the watchdog loop takes no action at
all: no commands, state untouched. -/
theorem watchdogRun_not_running (ticks : List (ℚ × GwOutcome)) (sl : Bool) (st : DState)
    (h : st.pad.running = false) :
    ∃ sl2, watchdogRun sl st ticks = (some (sl2, st), []) := by
  induction ticks generalizing sl with
  | nil => exact ⟨sl, rfl⟩
  | cons p rest ih =>
    obtain ⟨now, gw⟩ := p
    have ht : watchdogTick now gw sl st = ⟨false, false, st, []⟩ := by
      simp [watchdogTick, h]
    obtain ⟨sl2, h2⟩ := ih false
    exact ⟨sl2, by simp [watchdogRun, ht, h2]⟩

/-! ## C1 -/

/-- C1 counterexample: with the device connected, a failing `pad.start`
escapes handle_heartbeat uncaught (HOut.raised, not a converted result
value), and a failing `pad.stop` during a watchdog tick past the stop
threshold terminates the whole watchdog loop (the scheduled next tick at
time 105 never runs). -/
theorem C1_counterexample :
    (handle_heartbeat 100 Body.unparsable gwStartFail stConnNotRun).out = HOut.raised
    ∧ (watchdogRun false stRun [(100, gwStopFail), (105, gwOk)]).1 = none := by
  constructor
  · norm_num [handle_heartbeat, hbSpeedArg, heartbeatDevice, connectIfNeeded, stConnNotRun, gwStartFail,
      Body.sessionField, Body.speedField]
  · norm_num [watchdogRun, watchdogTick, stRun, padRun, gwStopFail, STOP_AFTER, SLOW_AFTER]

/-- C1 amended: only connect failures are caught and converted to the 503
result value — in handle_heartbeat and handle_start alike; a failure of a
device start, set-speed or stop operation after a successful connect
escapes every one of the five mutating handlers uncaught (heartbeat and
start on their start command, speed on its set-speed, stop and session-end
on their stop), and a failure during a watchdog tick terminates the
watchdog loop rather than continuing to the next tick. -/
theorem C1_amended :
    (∀ now (b : Body) gw st, st.pad.connected = false → gw.connectOk = false →
       b.speedField = none → (handle_heartbeat now b gw st).out = HOut.err503)
    ∧ (∀ now (b : Body) gw st, st.pad.connected = false → gw.connectOk = false →
       b.speedField = none → (handle_start now b gw st).out = HOut.err503)
    ∧ (∀ now (b : Body) gw st, st.pad.connected = true → st.pad.running = false →
       gw.startOk = false → b.speedField = none →
       (handle_heartbeat now b gw st).out = HOut.raised)
    ∧ (∀ now (b : Body) gw st, st.pad.connected = true → gw.startOk = false →
       b.speedField = none → (handle_start now b gw st).out = HOut.raised)
    ∧ (∀ now (b : Body) gw st, st.pad.connected = true → st.pad.running = true →
       gw.setSpeedOk = false → b.speedField = none →
       (handle_speed now b gw st).out = HOut.raised)
    ∧ (∀ (b : Body) gw st, stopSessionArg b = none → st.pad.connected = true →
       st.pad.running = true → gw.stopOk = false →
       (handle_stop b gw st).out = HOut.raised)
    ∧ (∀ (b : Body) gw st,
       st.sessions.erase (b.sessionField.getD (JVal.str "default")) = ∅ →
       st.pad.connected = true → st.pad.running = true → gw.stopOk = false →
       (handle_session_end b gw st).out = HOut.raised)
    ∧ (∀ sl st now gw rest, st.pad.connected = true → st.pad.running = true →
       st.last_heartbeat ≠ 0 → now - st.last_heartbeat > STOP_AFTER →
       gw.stopOk = false → (watchdogRun sl st ((now, gw) :: rest)).1 = none) := by
  refine ⟨?_, ?_, ?_, ?_, ?_, ?_, ?_, ?_⟩
  · intro now b gw st hc hg hsp
    simp [handle_heartbeat, hbSpeedArg, heartbeatDevice, connectIfNeeded, hsp, hc, hg]
  · intro now b gw st hc hg hsp
    simp [handle_start, startDevice, connectIfNeeded, hsp, hc, hg]
  · intro now b gw st hc hr hg hsp
    simp [handle_heartbeat, hbSpeedArg, heartbeatDevice, connectIfNeeded, hsp, hc, hr, hg]
  · intro now b gw st hc hg hsp
    simp [handle_start, startDevice, connectIfNeeded, hsp, hc, hg]
  · intro now b gw st hc hr hg hsp
    simp [handle_speed, hsp, hc, hr, hg]
  · intro b gw st hb hc hr hg
    simp [handle_stop, hb, hc, hr, hg]
  · intro b gw st he hc hr hg
    simp [handle_session_end, he, hc, hr, hg]
  · intro sl st now gw rest hc hr hl he hg
    have ht : (watchdogTick now gw sl st).crashed = true := by
      simp [watchdogTick, hl, hr, he, hc, hg]
    simp [watchdogRun, ht]

/-- C1 amended, witnessed at concrete inputs: a failing start escapes
handle_start on a connected device, a failing stop escapes
handle_session_end on the last session, and a stop failure at tick time
100 (heartbeat last seen at 10) kills the watchdog loop. -/
theorem C1_amended_witness :
    (handle_start 100 Body.unparsable gwStartFail stConnNotRun).out = HOut.raised
    ∧ (handle_session_end (Body.obj (some (JVal.str "a")) none) gwStopFail stRun).out
        = HOut.raised
    ∧ (watchdogRun false stRun [(100, gwStopFail)]).1 = none :=
  ⟨C1_amended.2.2.2.1 100 Body.unparsable gwStartFail stConnNotRun rfl rfl rfl,
    C1_amended.2.2.2.2.2.2.1 (Body.obj (some (JVal.str "a")) none) gwStopFail stRun
      (by simp [stRun, Body.sessionField]) rfl rfl rfl,
    C1_amended.2.2.2.2.2.2.2 false stRun 100 gwStopFail []
      rfl rfl (by norm_num [stRun]) (by norm_num [stRun, STOP_AFTER]) rfl⟩

/-! ## C2 -/

/-- C2 counterexample: the decay flag is not reset by a fresh heartbeat.
Concretely: device running with last heartbeat at time 10; the tick at 45
slows the belt once (flag becomes true); a fresh heartbeat at 50 succeeds
while the device keeps running (no intervening stop); yet the tick at 85 —
more than SLOW_AFTER past the renewed heartbeat — issues no set-speed
command at all, so the second idle period gets zero slow commands instead
of exactly one. -/
theorem C2_counterexample :
    (watchdogTick 45 gwOk false stRun).cmds = [Cmd.setSpeed MIN_SPEED]
    ∧ (watchdogTick 45 gwOk false stRun).slowed = true
    ∧ (handle_heartbeat 50 Body.unparsable gwOk
        (watchdogTick 45 gwOk false stRun).st).out = HOut.ok
    ∧ (handle_heartbeat 50 Body.unparsable gwOk
        (watchdogTick 45 gwOk false stRun).st).st.pad.running = true
    ∧ 85 - (handle_heartbeat 50 Body.unparsable gwOk
        (watchdogTick 45 gwOk false stRun).st).st.last_heartbeat > SLOW_AFTER
    ∧ (watchdogTick 85 gwOk (watchdogTick 45 gwOk false stRun).slowed
        (handle_heartbeat 50 Body.unparsable gwOk
          (watchdogTick 45 gwOk false stRun).st).st).cmds = [] := by
  refine ⟨?_, ?_, ?_, ?_, ?_, ?_⟩ <;>
    norm_num [watchdogTick, handle_heartbeat, hbSpeedArg, heartbeatDevice, connectIfNeeded, stRun, padRun,
      gwOk, STOP_AFTER, SLOW_AFTER, Body.sessionField, Body.speedField]

/-- C2 amended: the watchdog resets the decay flag only when it observes
HeartbeatClock unset or the device not running (or after crossing the stop
threshold) — a fresh heartbeat alone never resets it.  Hence (first
conjunct) the first tick past SLOW_AFTER of an idle period with the flag
clear issues exactly one set-speed(MIN_SPEED) and sets the flag; but
(second conjunct) once the flag is set, every further tick that finds the
device running and the heartbeat age within the stop threshold issues no
command and leaves the flag set, so a second idle period that follows
renewed heartbeats without an intervening device stop gets no
set-speed(MIN_SPEED) at all. -/
theorem C2_amended :
    (∀ now gw st, st.pad.connected = true → st.pad.running = true →
       st.last_heartbeat ≠ 0 → now - st.last_heartbeat > SLOW_AFTER →
       ¬ now - st.last_heartbeat > STOP_AFTER → gw.setSpeedOk = true →
       (watchdogTick now gw false st).cmds = [Cmd.setSpeed MIN_SPEED]
       ∧ (watchdogTick now gw false st).slowed = true)
    ∧ (∀ ticks (st : DState), st.pad.running = true → st.last_heartbeat ≠ 0 →
       (∀ p ∈ ticks, (p : ℚ × GwOutcome).1 - st.last_heartbeat ≤ STOP_AFTER) →
       watchdogRun true st ticks = (some (true, st), [])) := by
  constructor
  · intro now gw st hc hr hl hs hst hok
    constructor <;> simp [watchdogTick, hl, hr, hc, hs, hst, hok]
  · intro ticks
    induction ticks with
    | nil => intro st _ _ _; rfl
    | cons p rest ih =>
      intro st hr hl hall
      obtain ⟨now, gw⟩ := p
      have hle : now - st.last_heartbeat ≤ STOP_AFTER := hall (now, gw) (by simp)
      have ht : watchdogTick now gw true st = ⟨false, true, st, []⟩ := by
        simp [watchdogTick, hl, hr, not_lt.mpr hle]
      have h2 := ih st hr hl (fun p hp => hall p (by simp [hp]))
      simp [watchdogRun, ht, h2]

/-- C2 amended, witnessed: the tick at 45 slows exactly once, and with the
flag set a tick at 85 (after a heartbeat at 50) issues nothing. -/
theorem C2_amended_witness :
    ((watchdogTick 45 gwOk false stRun).cmds = [Cmd.setSpeed MIN_SPEED]
      ∧ (watchdogTick 45 gwOk false stRun).slowed = true)
    ∧ watchdogRun true { stRun with last_heartbeat := 50 } [(85, gwOk)]
        = (some (true, { stRun with last_heartbeat := 50 }), []) :=
  ⟨C2_amended.1 45 gwOk stRun rfl rfl (by norm_num [stRun])
      (by norm_num [stRun, SLOW_AFTER]) (by norm_num [stRun, STOP_AFTER]) rfl,
    C2_amended.2 [(85, gwOk)] { stRun with last_heartbeat := 50 } rfl (by norm_num [stRun])
      (by intro p hp; simp at hp; norm_num [hp, stRun, STOP_AFTER])⟩

/-! ## C3 -/

/-- The device phase of handle_heartbeat touches only the device snapshot:
target speed, heartbeat clock and session set pass through unchanged. -/
theorem heartbeatDevice_keeps (sg : Bool) (gw : GwOutcome) (st : DState) :
    (heartbeatDevice sg gw st).st.target_speed = st.target_speed
    ∧ (heartbeatDevice sg gw st).st.last_heartbeat = st.last_heartbeat
    ∧ (heartbeatDevice sg gw st).st.sessions = st.sessions := by
  rcases st with ⟨⟨c, r, sp⟩, lhb, ts, ss⟩
  rcases gw with ⟨gc, gst, gstp, gss⟩
  cases c <;> cases r <;> cases gc <;> cases gst <;> cases gss <;> cases sg <;>
    simp [heartbeatDevice, connectIfNeeded]

/-- The device phase of handle_start touches only the device snapshot. -/
theorem startDevice_keeps (gw : GwOutcome) (st : DState) :
    (startDevice gw st).st.target_speed = st.target_speed
    ∧ (startDevice gw st).st.last_heartbeat = st.last_heartbeat
    ∧ (startDevice gw st).st.sessions = st.sessions := by
  rcases st with ⟨⟨c, r, sp⟩, lhb, ts, ss⟩
  rcases gw with ⟨gc, gst, gstp, gss⟩
  cases c <;> cases gc <;> cases gst <;> simp [startDevice, connectIfNeeded]

/-- Target speed after handle_heartbeat: clamped when a usable speed was
supplied, otherwise unchanged (also on every error path). -/
theorem heartbeat_target (now : ℚ) (b : Body) (gw : GwOutcome) (st : DState) :
    (handle_heartbeat now b gw st).st.target_speed =
      (match hbSpeedArg b with
      | none => st.target_speed
      | some v =>
        match pyFloat v with
        | none => st.target_speed
        | some pv => clampPy pv) := by
  rcases hv : hbSpeedArg b with _ | v
  · simp [handle_heartbeat, hv, (heartbeatDevice_keeps _ _ _).1]
  · rcases hq : pyFloat v with _ | pv
    · simp [handle_heartbeat, hv, hq]
    · simp [handle_heartbeat, hv, hq, (heartbeatDevice_keeps _ _ _).1]

/-- Target speed after handle_start: the clamp of the supplied speed (or of
DEFAULT_SPEED), except when `float()` raised, which leaves it unchanged. -/
theorem start_target (now : ℚ) (b : Body) (gw : GwOutcome) (st : DState) :
    (handle_start now b gw st).st.target_speed =
      (match b.speedField with
      | none => clampPy (PyVal.fin DEFAULT_SPEED)
      | some v =>
        match pyFloat v with
        | none => st.target_speed
        | some pv => clampPy pv) := by
  rcases hv : b.speedField with _ | v
  · simp [handle_start, hv, (startDevice_keeps _ _).1]
  · rcases hq : pyFloat v with _ | pv
    · simp [handle_start, hv, hq]
    · simp [handle_start, hv, hq, (startDevice_keeps _ _).1]

/-- Target speed after handle_speed, in the same three cases as
handle_start. -/
theorem speed_target (now : ℚ) (b : Body) (gw : GwOutcome) (st : DState) :
    (handle_speed now b gw st).st.target_speed =
      (match b.speedField with
      | none => clampPy (PyVal.fin DEFAULT_SPEED)
      | some v =>
        match pyFloat v with
        | none => st.target_speed
        | some pv => clampPy pv) := by
  rcases hv : b.speedField with _ | v
  · simp only [handle_speed, hv]
    split_ifs <;> simp
  · rcases hq : pyFloat v with _ | pv
    · simp [handle_speed, hv, hq]
    · simp only [handle_speed, hv, hq]
      split_ifs <;> simp

/-- handle_stop never changes the target speed. -/
theorem stop_target (b : Body) (gw : GwOutcome) (st : DState) :
    (handle_stop b gw st).st.target_speed = st.target_speed := by
  rcases hb : stopSessionArg b with _ | v <;>
    · simp only [handle_stop, hb]
      split_ifs <;> simp

/-- handle_session_end never changes the target speed. -/
theorem session_end_target (b : Body) (gw : GwOutcome) (st : DState) :
    (handle_session_end b gw st).st.target_speed = st.target_speed := by
  simp only [handle_session_end]
  split_ifs <;> simp

/-- The watchdog never changes the target speed. -/
theorem tick_target (now : ℚ) (gw : GwOutcome) (sl : Bool) (st : DState) :
    (watchdogTick now gw sl st).st.target_speed = st.target_speed := by
  simp only [watchdogTick]
  split_ifs <;> simp

/-- C3: for every numeric speed input `q` to heartbeat, start or setSpeed,
the stored target speed afterwards is exactly `max(0.5, min(6.0, q))`; and
every reachable controller state (initial state included) has its target
speed within [0.5, 6]. -/
theorem C3 :
    (∀ (now : ℚ) (gw : GwOutcome) (st : DState) (q : ℚ) (sess : Option JVal),
      (handle_heartbeat now (Body.obj sess (some (JVal.num q))) gw st).st.target_speed
        = max (1 / 2) (min 6 q))
    ∧ (∀ (now : ℚ) (gw : GwOutcome) (st : DState) (q : ℚ) (sess : Option JVal),
      (handle_start now (Body.obj sess (some (JVal.num q))) gw st).st.target_speed
        = max (1 / 2) (min 6 q))
    ∧ (∀ (now : ℚ) (gw : GwOutcome) (st : DState) (q : ℚ) (sess : Option JVal),
      (handle_speed now (Body.obj sess (some (JVal.num q))) gw st).st.target_speed
        = max (1 / 2) (min 6 q))
    ∧ (∀ st : DState, Reachable st → 1 / 2 ≤ st.target_speed ∧ st.target_speed ≤ 6) := by
  refine ⟨?_, ?_, ?_, ?_⟩
  · intro now gw st q sess
    rw [heartbeat_target]
    simp [hbSpeedArg, Body.speedField, pyFloat, clampPy, clamp]
  · intro now gw st q sess
    rw [start_target]
    simp [Body.speedField, pyFloat, clampPy, clamp]
  · intro now gw st q sess
    rw [speed_target]
    simp [Body.speedField, pyFloat, clampPy, clamp]
  · intro st h
    induction h with
    | init => norm_num [initState, DEFAULT_SPEED]
    | heartbeat now b gw _ ih =>
      rw [heartbeat_target]
      rcases hv : hbSpeedArg b with _ | v
      · simpa only [hv] using ih
      · rcases hq : pyFloat v with _ | pv
        · simpa only [hv, hq] using ih
        · simpa only [hv, hq] using ⟨half_le_clampPy pv, clampPy_le_six pv⟩
    | start now b gw _ ih =>
      rw [start_target]
      rcases hv : b.speedField with _ | v
      · simpa only [hv] using
          ⟨half_le_clampPy (.fin DEFAULT_SPEED), clampPy_le_six (.fin DEFAULT_SPEED)⟩
      · rcases hq : pyFloat v with _ | pv
        · simpa only [hv, hq] using ih
        · simpa only [hv, hq] using ⟨half_le_clampPy pv, clampPy_le_six pv⟩
    | stop b gw _ ih => rw [stop_target]; exact ih
    | speed now b gw _ ih =>
      rw [speed_target]
      rcases hv : b.speedField with _ | v
      · simpa only [hv] using
          ⟨half_le_clampPy (.fin DEFAULT_SPEED), clampPy_le_six (.fin DEFAULT_SPEED)⟩
      · rcases hq : pyFloat v with _ | pv
        · simpa only [hv, hq] using ih
        · simpa only [hv, hq] using ⟨half_le_clampPy pv, clampPy_le_six pv⟩
    | sessionEnd b gw _ ih => rw [session_end_target]; exact ih
    | tick now gw sl _ ih => rw [tick_target]; exact ih
    | device p _ ih => exact ih

/-- C3, witnessed: a heartbeat carrying speed 10 stores the clamp 6, and
the initial state satisfies the bounds. -/
theorem C3_witness :
    (handle_heartbeat 100 (Body.obj none (some (JVal.num 10))) gwOk initState).st.target_speed
      = max (1 / 2) (min 6 10)
    ∧ (1 / 2 ≤ initState.target_speed ∧ initState.target_speed ≤ 6) :=
  ⟨C3.1 100 gwOk initState 10 none, C3.2.2.2 initState Reachable.init⟩

/-! ## C4 -/

/-- C4: with the device connected and running and the heartbeat more than
STOP_AFTER old, the first watchdog tick past the threshold issues exactly
one stop command, empties the active-session set and leaves the device
stopped; and from the resulting state every further run of watchdog ticks
(before any new heartbeat) issues no command at all. -/
theorem C4 (now : ℚ) (gw : GwOutcome) (sl : Bool) (st : DState)
    (hC : st.pad.connected = true) (hR : st.pad.running = true)
    (hL : st.last_heartbeat ≠ 0) (hE : now - st.last_heartbeat > STOP_AFTER)
    (hOk : gw.stopOk = true) :
    (watchdogTick now gw sl st).cmds = [Cmd.stop]
    ∧ (watchdogTick now gw sl st).st.sessions = ∅
    ∧ (watchdogTick now gw sl st).st.pad.running = false
    ∧ (watchdogTick now gw sl st).crashed = false
    ∧ ∀ (rest : List (ℚ × GwOutcome)) (sl2 : Bool),
        (watchdogRun sl2 (watchdogTick now gw sl st).st rest).2 = [] := by
  have ht : watchdogTick now gw sl st =
      ⟨false, false,
        { st with pad := { st.pad with running := false, speed := 0 }, sessions := ∅ },
        [Cmd.stop]⟩ := by
    simp [watchdogTick, hL, hR, hC, hE, hOk]
  refine ⟨by rw [ht], by rw [ht], by rw [ht], by rw [ht], ?_⟩
  intro rest sl2
  obtain ⟨sl3, h3⟩ :=
    watchdogRun_not_running rest sl2 (watchdogTick now gw sl st).st (by rw [ht])
  rw [h3]

/-- C4, witnessed at a concrete input: tick at time 100 on a running device
whose last heartbeat was at 10. -/
theorem C4_witness :
    (watchdogTick 100 gwOk false stRun).cmds = [Cmd.stop]
    ∧ (watchdogTick 100 gwOk false stRun).st.sessions = ∅
    ∧ (watchdogTick 100 gwOk false stRun).st.pad.running = false
    ∧ (watchdogRun false (watchdogTick 100 gwOk false stRun).st [(110, gwOk)]).2 = [] :=
  have h := C4 100 gwOk false stRun rfl rfl
    (by norm_num [stRun]) (by norm_num [stRun, STOP_AFTER]) rfl
  ⟨h.1, h.2.1, h.2.2.1, h.2.2.2.2 [(110, gwOk)] false⟩

/-! ## C5 -/

/-- C5 counterexample: a parsable body whose speed field is the non-numeric
string "fast" makes handle_start raise (uncaught ValueError from
`float("fast")`) instead of yielding a success result. -/
theorem C5_counterexample :
    (handle_start 100 (Body.obj none (some (JVal.str "fast"))) gwOk initState).out
      = HOut.raised := by
  decide

/-- C5 amended: an unparsable (or missing) request body is recovered by
substituting defaults — with a healthy gateway every handler then returns a
success result — but a parsable body whose speed field is a non-numeric
string raises an uncaught error out of start, speed and heartbeat. -/
theorem C5_amended :
    (∀ (now : ℚ) (st : DState), (handle_start now Body.unparsable gwOk st).out = HOut.ok)
    ∧ (∀ (now : ℚ) (st : DState), (handle_speed now Body.unparsable gwOk st).out = HOut.ok)
    ∧ (∀ (now : ℚ) (st : DState), (handle_heartbeat now Body.unparsable gwOk st).out = HOut.ok)
    ∧ (∀ st : DState, (handle_stop Body.unparsable gwOk st).out = HOut.ok)
    ∧ (∀ st : DState, (handle_session_end Body.unparsable gwOk st).out = HOut.ok)
    ∧ (∀ (now : ℚ) (gw : GwOutcome) (st : DState) (s : String) (sess : Option JVal),
        strToFloat? s = none →
        (handle_start now (Body.obj sess (some (JVal.str s))) gw st).out = HOut.raised
        ∧ (handle_speed now (Body.obj sess (some (JVal.str s))) gw st).out = HOut.raised
        ∧ (handle_heartbeat now (Body.obj sess (some (JVal.str s))) gw st).out
            = HOut.raised) := by
  refine ⟨?_, ?_, ?_, ?_, ?_, ?_⟩
  · intro now st
    simp only [handle_start, startDevice, connectIfNeeded, Body.speedField, gwOk]
    split_ifs <;> simp
  · intro now st
    simp only [handle_speed, Body.speedField, gwOk]
    split_ifs <;> simp
  · intro now st
    rcases st with ⟨⟨c, r, sp⟩, lhb, ts, ss⟩
    cases c <;> cases r <;>
      simp [handle_heartbeat, hbSpeedArg, Body.speedField, heartbeatDevice,
        connectIfNeeded, gwOk]
  · intro st
    simp only [handle_stop, stopSessionArg, Body.sessionField, gwOk]
    split_ifs <;> simp
  · intro st
    simp only [handle_session_end, gwOk]
    split_ifs <;> simp
  · intro now gw st s sess h
    refine ⟨?_, ?_, ?_⟩
    · simp [handle_start, Body.speedField, pyFloat, h]
    · simp [handle_speed, Body.speedField, pyFloat, h]
    · simp [handle_heartbeat, hbSpeedArg, Body.speedField, pyFloat, h]

/-- C5 amended, witnessed: an unparsable body succeeds on start and
heartbeat from the initial state; the body with speed "fast" raises on
start. -/
theorem C5_amended_witness :
    (handle_start 100 Body.unparsable gwOk initState).out = HOut.ok
    ∧ (handle_heartbeat 100 Body.unparsable gwOk initState).out = HOut.ok
    ∧ (handle_speed 100 (Body.obj none (some (JVal.str "fast"))) gwOk initState).out
        = HOut.raised :=
  ⟨C5_amended.1 100 initState, C5_amended.2.2.1 100 initState,
    (C5_amended.2.2.2.2.2 100 gwOk initState "fast" none (by decide)).2.1⟩

/-! ## C6 -/

/-- C6 counterexample: a start request bearing the unseen session token "a"
does not insert it — handle_start never touches the session set. -/
theorem C6_counterexample :
    JVal.str "a"
      ∉ (handle_start 100 (Body.obj (some (JVal.str "a")) none) gwOk initState).st.sessions := by
  decide

/-- C6 amended: a heartbeat bearing token t always inserts t into the
active-session set (token "default" when absent), but start never modifies
the session set — it ignores any session token, so a session is created
only by the first heartbeat bearing it. -/
theorem C6_amended :
    (∀ (now : ℚ) (b : Body) (gw : GwOutcome) (st : DState),
      (handle_heartbeat now b gw st).st.sessions
        = insert (b.sessionField.getD (JVal.str "default")) st.sessions)
    ∧ (∀ (now : ℚ) (b : Body) (gw : GwOutcome) (st : DState),
      (handle_start now b gw st).st.sessions = st.sessions) := by
  constructor
  · intro now b gw st
    rcases hv : hbSpeedArg b with _ | v
    · simp [handle_heartbeat, hv, (heartbeatDevice_keeps _ _ _).2.2]
    · rcases hq : pyFloat v with _ | q
      · simp [handle_heartbeat, hv, hq]
      · simp [handle_heartbeat, hv, hq, (heartbeatDevice_keeps _ _ _).2.2]
  · intro now b gw st
    rcases hv : b.speedField with _ | v
    · simp [handle_start, hv, (startDevice_keeps _ _).2.2]
    · rcases hq : pyFloat v with _ | q <;>
        simp [handle_start, hv, hq, (startDevice_keeps _ _).2.2]

/-! ## C7 -/

/-- C7: a stop request with no session token (and a stop command that does
not itself raise) always empties the active-session set, clears the
heartbeat clock to the unset sentinel, succeeds, and issues a device stop
command exactly when the device is connected and running. -/
theorem C7 (b : Body) (gw : GwOutcome) (st : DState)
    (hs : stopSessionArg b = none) (hOk : gw.stopOk = true) :
    (handle_stop b gw st).st.sessions = ∅
    ∧ (handle_stop b gw st).st.last_heartbeat = 0
    ∧ (handle_stop b gw st).out = HOut.ok
    ∧ (handle_stop b gw st).cmds
        = (if st.pad.connected ∧ st.pad.running then [Cmd.stop] else []) := by
  simp only [handle_stop, hs, hOk]
  split_ifs with h1 h2 <;> simp_all

/-- C7, witnessed: an unparsable body (hence no session token) on a
connected, running device with one active session. -/
theorem C7_witness :
    (handle_stop Body.unparsable gwOk stRun).st.sessions = ∅
    ∧ (handle_stop Body.unparsable gwOk stRun).st.last_heartbeat = 0
    ∧ (handle_stop Body.unparsable gwOk stRun).out = HOut.ok
    ∧ (handle_stop Body.unparsable gwOk stRun).cmds
        = (if stRun.pad.connected ∧ stRun.pad.running then [Cmd.stop] else []) :=
  C7 Body.unparsable gwOk stRun rfl rfl

/-! ## C8 -/

/-- C8: sessionEnd on the last remaining session (device connected and
running, stop succeeding) stops the device and empties the session set but
— unlike stop() — leaves the heartbeat clock untouched and set; the same
state fed to handle_stop with no token has its clock cleared to 0. -/
theorem C8 (b : Body) (gw : GwOutcome) (st : DState)
    (hset : st.sessions = {b.sessionField.getD (JVal.str "default")})
    (hC : st.pad.connected = true) (hR : st.pad.running = true)
    (hL : st.last_heartbeat ≠ 0) (hOk : gw.stopOk = true) :
    (handle_session_end b gw st).st.sessions = ∅
    ∧ (handle_session_end b gw st).st.last_heartbeat = st.last_heartbeat
    ∧ (handle_session_end b gw st).st.last_heartbeat ≠ 0
    ∧ (handle_session_end b gw st).cmds = [Cmd.stop]
    ∧ (handle_session_end b gw st).st.pad.running = false
    ∧ (handle_stop Body.unparsable gw st).st.last_heartbeat = 0 := by
  have he : st.sessions.erase (b.sessionField.getD (JVal.str "default")) = ∅ := by
    rw [hset]; exact Finset.erase_singleton _
  constructor
  · simp [handle_session_end, he, hC, hR, hOk]
  refine ⟨?_, ?_, ?_, ?_, ?_⟩
  · simp [handle_session_end, he, hC, hR, hOk]
  · simp only [handle_session_end, he, hC, hR, hOk]
    simpa using hL
  · simp [handle_session_end, he, hC, hR, hOk]
  · simp [handle_session_end, he, hC, hR, hOk]
  · simp [handle_stop, stopSessionArg, Body.sessionField, hC, hR, hOk]

/-- C8, witnessed: session set {"a"}, body ending session "a", device
connected and running. -/
theorem C8_witness :
    (handle_session_end (Body.obj (some (JVal.str "a")) none) gwOk stRun).st.sessions = ∅
    ∧ (handle_session_end (Body.obj (some (JVal.str "a")) none) gwOk stRun).st.last_heartbeat
        = stRun.last_heartbeat
    ∧ (handle_session_end (Body.obj (some (JVal.str "a")) none) gwOk stRun).st.last_heartbeat ≠ 0
    ∧ (handle_session_end (Body.obj (some (JVal.str "a")) none) gwOk stRun).cmds = [Cmd.stop]
    ∧ (handle_session_end (Body.obj (some (JVal.str "a")) none) gwOk stRun).st.pad.running = false
    ∧ (handle_stop Body.unparsable gwOk stRun).st.last_heartbeat = 0 :=
  C8 (Body.obj (some (JVal.str "a")) none) gwOk stRun rfl rfl rfl
    (by norm_num [stRun]) rfl

/-! ## C9 -/

/-- C9: a heartbeat that finds the gateway disconnected and whose connect
attempt fails returns the 503 gateway-unavailable result, yet none of the
earlier mutations are rolled back: the session token stays inserted, the
heartbeat clock stays at now, and a supplied numeric speed stays stored
(clamped) as the target speed; only the failed connect was attempted. -/
theorem C9 (now : ℚ) (gw : GwOutcome) (st : DState) (t : JVal) (q : ℚ)
    (hC : st.pad.connected = false) (hG : gw.connectOk = false) :
    (handle_heartbeat now (Body.obj (some t) (some (JVal.num q))) gw st).out = HOut.err503
    ∧ t ∈ (handle_heartbeat now (Body.obj (some t) (some (JVal.num q))) gw st).st.sessions
    ∧ (handle_heartbeat now (Body.obj (some t) (some (JVal.num q))) gw st).st.last_heartbeat
        = now
    ∧ (handle_heartbeat now (Body.obj (some t) (some (JVal.num q))) gw st).st.target_speed
        = clamp q
    ∧ (handle_heartbeat now (Body.obj (some t) (some (JVal.num q))) gw st).cmds
        = [Cmd.connect] := by
  simp [handle_heartbeat, hbSpeedArg, Body.speedField, Body.sessionField, pyFloat, clampPy,
    heartbeatDevice, connectIfNeeded, hC, hG]

/-- C9, witnessed: disconnected initial state, failing connect, token "a",
speed 10. -/
theorem C9_witness :
    (handle_heartbeat 100 (Body.obj (some (JVal.str "a")) (some (JVal.num 10)))
        gwConnFail initState).out = HOut.err503
    ∧ JVal.str "a" ∈ (handle_heartbeat 100 (Body.obj (some (JVal.str "a"))
        (some (JVal.num 10))) gwConnFail initState).st.sessions
    ∧ (handle_heartbeat 100 (Body.obj (some (JVal.str "a")) (some (JVal.num 10)))
        gwConnFail initState).st.last_heartbeat = 100
    ∧ (handle_heartbeat 100 (Body.obj (some (JVal.str "a")) (some (JVal.num 10)))
        gwConnFail initState).st.target_speed = clamp 10
    ∧ (handle_heartbeat 100 (Body.obj (some (JVal.str "a")) (some (JVal.num 10)))
        gwConnFail initState).cmds = [Cmd.connect] :=
  C9 100 gwConnFail initState (JVal.str "a") 10 rfl rfl

/-! ## C10 -/

/-- C10: on a connected, running device, a heartbeat with no speed field
issues no device command at all — the belt's reported speed (MIN_SPEED
after a slow-down) and the stored target speed both keep their previous
values; a heartbeat with an explicit numeric speed instead issues exactly
one set-speed at the clamped value, restoring the belt. -/
theorem C10 (now : ℚ) (gw : GwOutcome) (st : DState) (sess : Option JVal) (q : ℚ)
    (hC : st.pad.connected = true) (hR : st.pad.running = true) :
    ((handle_heartbeat now (Body.obj sess none) gw st).out = HOut.ok
      ∧ (handle_heartbeat now (Body.obj sess none) gw st).cmds = []
      ∧ (handle_heartbeat now (Body.obj sess none) gw st).st.pad.speed = st.pad.speed
      ∧ (handle_heartbeat now (Body.obj sess none) gw st).st.target_speed = st.target_speed)
    ∧ (gw.setSpeedOk = true →
      (handle_heartbeat now (Body.obj sess (some (JVal.num q))) gw st).cmds
          = [Cmd.setSpeed (clamp q)]
      ∧ (handle_heartbeat now (Body.obj sess (some (JVal.num q))) gw st).st.pad.speed
          = clamp q) := by
  constructor
  · simp [handle_heartbeat, hbSpeedArg, Body.speedField, heartbeatDevice,
      connectIfNeeded, hC, hR]
  · intro hok
    simp [handle_heartbeat, hbSpeedArg, Body.speedField, pyFloat, clampPy, heartbeatDevice,
      connectIfNeeded, hC, hR, hok]

/-- C10, witnessed on the post-slow-down state (belt at MIN_SPEED, target
still 4): a speedless heartbeat leaves the belt at MIN_SPEED with no
command; a heartbeat with speed 4 issues set-speed(clamp 4). -/
theorem C10_witness :
    (handle_heartbeat 100 (Body.obj none none) gwOk stSlowed).cmds = []
    ∧ (handle_heartbeat 100 (Body.obj none none) gwOk stSlowed).st.pad.speed
        = stSlowed.pad.speed
    ∧ (handle_heartbeat 100 (Body.obj none (some (JVal.num 4))) gwOk stSlowed).cmds
        = [Cmd.setSpeed (clamp 4)] :=
  have h := C10 100 gwOk stSlowed none 4 rfl rfl
  ⟨h.1.2.1, h.1.2.2.1, (h.2 rfl).1⟩

end WWC
